import Mathlib

/-!
Verification of `selfdrive/debug/set_car_params.py`.

The script reads a vehicle-parameter record — either the first `carParams`
record of the first qlog segment of a route given on the command line, or a
freshly constructed default record when no argument is given — serializes it,
and writes the bytes into a key-value store under the three keys
`CarParams`, `CarParamsCache` and `CarParamsPersistent`.

The embedding keeps the record payload type abstract (the script treats it
as opaque) and models the three external collaborators (route resolution,
log reading, serialization) as function fields of an `Env` structure.
The key-value store is an association list with overwrite-on-put semantics.
Effects are made explicit: a run returns the list of log segments opened,
the ordered list of `Params().put` calls performed, the final store, and an
optional runtime error.

Note on the no-argument branch: the source line `CP = car.CarParams.new_message()`
references the name `car`, which is never imported by the script (the imports
are `sys`, `common.params.Params`, `tools.lib.route.Route` and
`tools.lib.logreader.LogReader`). Python therefore raises `NameError` at that
line, before any serialization or store write. The embedding reflects this
with `RunError.nameError`.
-/

namespace SetCarParams

/-- Serialized capnp bytes, modelled as a list of byte values. -/
abbrev Bytes : Type := List Nat

/-- A decoded log record as the script sees it: a type tag (`m.which()`)
and, for `carParams` records, the embedded parameter payload
(`m.carParams`).  The payload type `α` is abstract: the script never
inspects it. -/
structure LogMessage (α : Type) where
  which : String
  carParams : α
deriving DecidableEq, Repr

/-- The external collaborators consumed by the script:
`qlog_paths r` is `Route(r).qlog_paths()` (route resolution to an ordered
list of segment locations); `logRead p` is `LogReader(p)` (decoding a
segment into its ordered records); `to_bytes` is capnp serialization of a
parameter record. -/
structure Env (α : Type) where
  qlog_paths : String → List String
  logRead : String → List (LogMessage α)
  to_bytes : α → Bytes

/-- The persistent key-value store (`Params`), as an association list from
key names to byte values. -/
abbrev Store : Type := List (String × Bytes)

/-- `Params().put k v`: overwrite the value under `k` (replacing the binding
in place when the key is present, appending it otherwise). -/
def put : Store → String → Bytes → Store
  | [], k, v => [(k, v)]
  | (k', v') :: rest, k, v =>
      if k' = k then (k, v) :: rest else (k', v') :: put rest k v

/-- Look up the value currently stored under a key. -/
def get : Store → String → Option Bytes
  | [], _ => none
  | (k', v') :: rest, k => if k' = k then some v' else get rest k

/-- The runtime errors the script can raise.
`nameError` is Python's `NameError` on the unbound name `car` in the
no-argument branch; `pathsIndexError` is the `IndexError` from
`r.qlog_paths()[0]` when the route resolves to no segments;
`cpsIndexError` is the `IndexError` from `cps[0]` when the first segment
holds no `carParams` record. -/
inductive RunError : Type
  | nameError
  | pathsIndexError
  | cpsIndexError
deriving DecidableEq, Repr

/-- The observable outcome of one invocation: the optional uncaught error,
the segment locations opened for reading, the ordered `put` calls made,
and the final store contents. -/
structure RunResult : Type where
  error : Option RunError
  reads : List String
  writes : List (String × Bytes)
  store : Store
deriving DecidableEq, Repr

/-- The three fixed key names written by the final loop, in source order. -/
def carParamsKeys : List String := ["CarParams", "CarParamsCache", "CarParamsPersistent"]

/-- `as_builder()` produces a mutable copy of a decoded record; in a pure
value embedding a copy of a value is the value itself. -/
def as_builder {α : Type} (cp : α) : α := cp

/-- The final loop of the script,
`for p in ("CarParams", "CarParamsCache", "CarParamsPersistent"): Params().put(p, cp_bytes)`. -/
def seedStore (store0 : Store) (cp_bytes : Bytes) : Store :=
  carParamsKeys.foldl (fun s p => put s p cp_bytes) store0

/-- The body of the argument branch: resolve the route, open its first qlog
segment, keep the records whose tag is `carParams`, take the first one,
serialize its payload and write the bytes under the three keys.  Mirrors
lines 11-19 of the source for the case `len(sys.argv) > 1`. -/
def runWithArg {α : Type} (env : Env α) (store0 : Store) (arg : String) : RunResult :=
  match env.qlog_paths arg with
  | [] =>
      { error := some RunError.pathsIndexError, reads := [], writes := [], store := store0 }
  | p0 :: _ =>
      match (env.logRead p0).filter (fun m => m.which == "carParams") with
      | [] =>
          { error := some RunError.cpsIndexError, reads := [p0], writes := [], store := store0 }
      | m0 :: _ =>
          let cp_bytes := env.to_bytes (as_builder m0.carParams)
          { error := none
            reads := [p0]
            writes := carParamsKeys.map (fun p => (p, cp_bytes))
            store := seedStore store0 cp_bytes }

/-- One invocation of the script on argument vector `argv` (the program name
included, as in `sys.argv`).  With more than one entry the argument branch
runs on `sys.argv[1]`; otherwise the script reaches
`CP = car.CarParams.new_message()` and dies with `NameError` because `car`
is unbound, leaving the store untouched. -/
def run {α : Type} (env : Env α) (store0 : Store) (argv : List String) : RunResult :=
  if h : 1 < argv.length then
    runWithArg env store0 (argv.get ⟨1, h⟩)
  else
    { error := some RunError.nameError, reads := [], writes := [], store := store0 }

/-- A concrete environment for evaluation: every route resolves to the single
segment `"seg0"`, whose log holds an `initData` record followed by a
`carParams` record with payload `7`; serializing a payload `n` yields the
single byte `[n]`. -/
def envW : Env Nat where
  qlog_paths := fun _ => ["seg0"]
  logRead := fun _ => [⟨"initData", 0⟩, ⟨"carParams", 7⟩]
  to_bytes := fun n => [n]

/-- A concrete environment whose single segment contains no `carParams`
record at all. -/
def envNoCP : Env Nat where
  qlog_paths := fun _ => ["seg0"]
  logRead := fun _ => [⟨"initData", 0⟩, ⟨"sendcan", 1⟩]
  to_bytes := fun n => [n]

/-! ### Store lemmas -/

lemma get_put_self (s : Store) (k : String) (v : Bytes) : get (put s k v) k = some v := by
  induction s with
  | nil => simp [put, get]
  | cons kv rest ih =>
    obtain ⟨k', v'⟩ := kv
    by_cases hk : k' = k
    · subst hk
      simp [put, get]
    · simp [put, get, hk, ih]

lemma get_put_ne (s : Store) (k q : String) (v : Bytes) (hne : k ≠ q) :
    get (put s k v) q = get s q := by
  induction s with
  | nil => simp [put, get, hne]
  | cons kv rest ih =>
    obtain ⟨k', v'⟩ := kv
    by_cases hk : k' = k
    · subst hk
      simp [put, get, hne]
    · simp only [put, if_neg hk, get]
      by_cases hq : k' = q
      · simp [hq]
      · simp [hq, ih]

lemma put_eq_of_get (s : Store) (k : String) (v : Bytes) (h : get s k = some v) :
    put s k v = s := by
  induction s with
  | nil => simp [get] at h
  | cons kv rest ih =>
    obtain ⟨k', v'⟩ := kv
    by_cases hk : k' = k
    · subst hk
      simp [get] at h
      simp [put, h]
    · simp [get, hk] at h
      simp [put, hk, ih h]

lemma seedStore_eq_puts (store0 : Store) (b : Bytes) :
    seedStore store0 b =
      put (put (put store0 "CarParams" b) "CarParamsCache" b) "CarParamsPersistent" b := rfl

lemma get_seedStore (store0 : Store) (b : Bytes) (k : String) (hk : k ∈ carParamsKeys) :
    get (seedStore store0 b) k = some b := by
  rw [seedStore_eq_puts]
  simp only [carParamsKeys, List.mem_cons, List.mem_singleton, List.not_mem_nil, or_false] at hk
  rcases hk with hk | hk | hk <;> subst hk
  · rw [get_put_ne _ _ _ _ (by decide), get_put_ne _ _ _ _ (by decide), get_put_self]
  · rw [get_put_ne _ _ _ _ (by decide), get_put_self]
  · rw [get_put_self]

lemma seedStore_idem (store0 : Store) (b : Bytes) :
    seedStore (seedStore store0 b) b = seedStore store0 b := by
  have h1 : put (seedStore store0 b) "CarParams" b = seedStore store0 b :=
    put_eq_of_get _ _ _ (get_seedStore store0 b _ (by decide))
  have h2 : put (seedStore store0 b) "CarParamsCache" b = seedStore store0 b :=
    put_eq_of_get _ _ _ (get_seedStore store0 b _ (by decide))
  have h3 : put (seedStore store0 b) "CarParamsPersistent" b = seedStore store0 b :=
    put_eq_of_get _ _ _ (get_seedStore store0 b _ (by decide))
  calc seedStore (seedStore store0 b) b
      = put (put (put (seedStore store0 b) "CarParams" b) "CarParamsCache" b)
          "CarParamsPersistent" b := rfl
    _ = put (put (seedStore store0 b) "CarParamsCache" b) "CarParamsPersistent" b := by rw [h1]
    _ = put (seedStore store0 b) "CarParamsPersistent" b := by rw [h2]
    _ = seedStore store0 b := h3

/-! ### Dispatch lemmas for `run` -/

lemma run_pos {α : Type} (env : Env α) (store0 : Store) (argv : List String)
    (h : 1 < argv.length) :
    run env store0 argv = runWithArg env store0 (argv.get ⟨1, h⟩) := by
  unfold run
  rw [dif_pos h]

lemma run_neg {α : Type} (env : Env α) (store0 : Store) (argv : List String)
    (h : ¬ 1 < argv.length) :
    run env store0 argv =
      { error := some RunError.nameError, reads := [], writes := [], store := store0 } := by
  unfold run
  rw [dif_neg h]

lemma runWithArg_no_paths {α : Type} (env : Env α) (store0 : Store) (arg : String)
    (hp : env.qlog_paths arg = []) :
    runWithArg env store0 arg =
      { error := some RunError.pathsIndexError, reads := [], writes := [], store := store0 } := by
  unfold runWithArg
  rw [hp]

lemma runWithArg_no_cps {α : Type} (env : Env α) (store0 : Store) (arg : String)
    (p0 : String) (ps : List String) (hp : env.qlog_paths arg = p0 :: ps)
    (hm : (env.logRead p0).filter (fun m => m.which == "carParams") = []) :
    runWithArg env store0 arg =
      { error := some RunError.cpsIndexError, reads := [p0], writes := [], store := store0 } := by
  simp only [runWithArg, hp, hm]

lemma runWithArg_found {α : Type} (env : Env α) (store0 : Store) (arg : String)
    (p0 : String) (ps : List String) (m0 : LogMessage α) (ms : List (LogMessage α))
    (hp : env.qlog_paths arg = p0 :: ps)
    (hm : (env.logRead p0).filter (fun m => m.which == "carParams") = m0 :: ms) :
    runWithArg env store0 arg =
      { error := none
        reads := [p0]
        writes := carParamsKeys.map (fun p => (p, env.to_bytes m0.carParams))
        store := seedStore store0 (env.to_bytes m0.carParams) } := by
  simp only [runWithArg, hp, hm, as_builder]

lemma run_success_inv {α : Type} (env : Env α) (store0 : Store) (argv : List String)
    (h : (run env store0 argv).error = none) :
    ∃ (hlen : 1 < argv.length) (p0 : String) (ps : List String)
      (m0 : LogMessage α) (ms : List (LogMessage α)),
      env.qlog_paths (argv.get ⟨1, hlen⟩) = p0 :: ps ∧
      (env.logRead p0).filter (fun m => m.which == "carParams") = m0 :: ms := by
  by_cases hlen : 1 < argv.length
  · rw [run_pos env store0 argv hlen] at h
    cases hp : env.qlog_paths (argv.get ⟨1, hlen⟩) with
    | nil =>
      rw [runWithArg_no_paths env store0 _ hp] at h
      simp at h
    | cons p0 ps =>
      cases hm : (env.logRead p0).filter (fun m => m.which == "carParams") with
      | nil =>
        rw [runWithArg_no_cps env store0 _ p0 ps hp hm] at h
        simp at h
      | cons m0 ms => exact ⟨hlen, p0, ps, m0, ms, hp, hm⟩
  · rw [run_neg env store0 argv hlen] at h
    simp at h

/-! ### Claim theorems -/

/-- Claim C2: for every invocation with one argument that is a valid route
identifier whose first log segment contains at least one record with type
tag `carParams`, the run succeeds and all three store keys hold content
equal to the encoding of the first such matching record's payload in that
first segment. -/
theorem run_route_stores_first_carParams {α : Type} (env : Env α) (store0 : Store)
    (argv : List String) (hlen : 1 < argv.length)
    (p0 : String) (ps : List String) (m0 : LogMessage α) (ms : List (LogMessage α))
    (hp : env.qlog_paths (argv.get ⟨1, hlen⟩) = p0 :: ps)
    (hm : (env.logRead p0).filter (fun m => m.which == "carParams") = m0 :: ms) :
    (run env store0 argv).error = none ∧
    ∀ k ∈ carParamsKeys,
      get (run env store0 argv).store k = some (env.to_bytes m0.carParams) := by
  rw [run_pos env store0 argv hlen, runWithArg_found env store0 _ p0 ps m0 ms hp hm]
  exact ⟨rfl, fun k hk => get_seedStore store0 _ k hk⟩

/-- Witness for C2 at a concrete route: the run succeeds and the three keys
all hold the serialization of the first `carParams` payload. -/
theorem run_route_stores_first_carParams_witness :
    (run envW [] ["set_car_params.py", "route0"]).error = none ∧
    get (run envW [] ["set_car_params.py", "route0"]).store "CarParams" = some [7] ∧
    get (run envW [] ["set_car_params.py", "route0"]).store "CarParamsCache" = some [7] ∧
    get (run envW [] ["set_car_params.py", "route0"]).store "CarParamsPersistent" = some [7] := by
  have h := run_route_stores_first_carParams envW [] ["set_car_params.py", "route0"]
    (by decide) "seg0" [] ⟨"carParams", 7⟩ [] (by decide) (by decide)
  exact ⟨h.1, h.2 "CarParams" (by decide), h.2 "CarParamsCache" (by decide),
    h.2 "CarParamsPersistent" (by decide)⟩

/-- Claim C3: an invocation with an argument whose resolved first segment
contains zero `carParams` records fails with the empty-selection index
error from `cps[0]` and performs no store writes, leaving the store
unchanged. -/
theorem run_route_without_carParams_fails {α : Type} (env : Env α) (store0 : Store)
    (argv : List String) (hlen : 1 < argv.length)
    (p0 : String) (ps : List String)
    (hp : env.qlog_paths (argv.get ⟨1, hlen⟩) = p0 :: ps)
    (hm : (env.logRead p0).filter (fun m => m.which == "carParams") = []) :
    (run env store0 argv).error = some RunError.cpsIndexError ∧
    (run env store0 argv).writes = [] ∧
    (run env store0 argv).store = store0 := by
  rw [run_pos env store0 argv hlen, runWithArg_no_cps env store0 _ p0 ps hp hm]
  exact ⟨rfl, rfl, rfl⟩

/-- Witness for C3 at a concrete route without `carParams` records. -/
theorem run_route_without_carParams_fails_witness :
    (run envNoCP [] ["set_car_params.py", "routeA"]).error = some RunError.cpsIndexError ∧
    (run envNoCP [] ["set_car_params.py", "routeA"]).writes = [] ∧
    (run envNoCP [] ["set_car_params.py", "routeA"]).store = [] :=
  run_route_without_carParams_fails envNoCP [] ["set_car_params.py", "routeA"]
    (by decide) "seg0" [] (by decide) (by decide)

/-- Claim C9: with zero command-line arguments beyond the program name the
script reaches `CP = car.CarParams.new_message()` and aborts with an
unbound-name error — the name `car` is never imported — before any
serialization or store write, leaving the store unchanged. -/
theorem run_no_args_raises_unbound_car {α : Type} (env : Env α) (store0 : Store)
    (argv : List String) (h : argv.length ≤ 1) :
    (run env store0 argv).error = some RunError.nameError ∧
    (run env store0 argv).writes = [] ∧
    (run env store0 argv).store = store0 := by
  rw [run_neg env store0 argv (by omega)]
  exact ⟨rfl, rfl, rfl⟩

/-- Witness for C9 at the concrete argument vector `["set_car_params.py"]`. -/
theorem run_no_args_raises_unbound_car_witness :
    (run envW [] ["set_car_params.py"]).error = some RunError.nameError ∧
    (run envW [] ["set_car_params.py"]).writes = [] ∧
    (run envW [] ["set_car_params.py"]).store = [] :=
  run_no_args_raises_unbound_car envW [] ["set_car_params.py"] (by decide)

/-- Claim C10: with two or more arguments beyond the program name, only the
first argument influences behavior: the run is observably identical to the
one-argument run with the trailing arguments removed. -/
theorem run_ignores_trailing_args {α : Type} (env : Env α) (store0 : Store)
    (prog a : String) (rest : List String) :
    run env store0 (prog :: a :: rest) = run env store0 [prog, a] := by
  have h1 : 1 < (prog :: a :: rest).length := by
    simp only [List.length_cons]
    omega
  have h2 : 1 < ([prog, a] : List String).length := by
    simp only [List.length_cons, List.length_nil]
    omega
  rw [run_pos env store0 _ h1, run_pos env store0 _ h2]
  rfl

/-- Claim C4: on every successful run, whatever the argument count, the
values stored under the three keys are pairwise byte-identical and equal to
the serialization of exactly one chosen parameter record. -/
theorem run_success_three_identical {α : Type} (env : Env α) (store0 : Store)
    (argv : List String) (h : (run env store0 argv).error = none) :
    ∃ cp : α, ∀ k ∈ carParamsKeys,
      get (run env store0 argv).store k = some (env.to_bytes cp) := by
  obtain ⟨hlen, p0, ps, m0, ms, hp, hm⟩ := run_success_inv env store0 argv h
  refine ⟨m0.carParams, fun k hk => ?_⟩
  rw [run_pos env store0 argv hlen, runWithArg_found env store0 _ p0 ps m0 ms hp hm]
  exact get_seedStore store0 _ k hk

/-- Witness for C4: on a concrete successful run two of the keys hold the
same stored value. -/
theorem run_success_three_identical_witness :
    get (run envW [] ["set_car_params.py", "routeB"]).store "CarParams" =
      get (run envW [] ["set_car_params.py", "routeB"]).store "CarParamsCache" := by
  obtain ⟨cp, hall⟩ :=
    run_success_three_identical envW [] ["set_car_params.py", "routeB"] (by decide)
  rw [hall "CarParams" (by decide), hall "CarParamsCache" (by decide)]

/-- Claim C5: running the script twice in a row with the same arguments
yields the same outcome — in particular the same final store content — as
running it once: each write is an unconditional overwrite of its key. -/
theorem run_idempotent {α : Type} (env : Env α) (store0 : Store) (argv : List String) :
    run env (run env store0 argv).store argv = run env store0 argv := by
  by_cases hlen : 1 < argv.length
  · rw [run_pos env store0 argv hlen]
    cases hp : env.qlog_paths (argv.get ⟨1, hlen⟩) with
    | nil =>
      rw [runWithArg_no_paths env store0 _ hp]
      dsimp only
      rw [run_pos env store0 argv hlen, runWithArg_no_paths env store0 _ hp]
    | cons p0 ps =>
      cases hm : (env.logRead p0).filter (fun m => m.which == "carParams") with
      | nil =>
        rw [runWithArg_no_cps env store0 _ p0 ps hp hm]
        dsimp only
        rw [run_pos env store0 argv hlen, runWithArg_no_cps env store0 _ p0 ps hp hm]
      | cons m0 ms =>
        rw [runWithArg_found env store0 _ p0 ps m0 ms hp hm]
        dsimp only
        rw [run_pos env (seedStore store0 (env.to_bytes m0.carParams)) argv hlen,
          runWithArg_found env (seedStore store0 (env.to_bytes m0.carParams)) _
            p0 ps m0 ms hp hm, seedStore_idem]
  · rw [run_neg env store0 argv hlen]
    dsimp only
    rw [run_neg env store0 argv hlen]

/-- Claim C6: on every successful run the three store writes happen in
exactly the order `CarParams`, `CarParamsCache`, `CarParamsPersistent`,
each one an overwriting `put` on the store produced by the one before. -/
theorem run_success_writes_in_order {α : Type} (env : Env α) (store0 : Store)
    (argv : List String) (h : (run env store0 argv).error = none) :
    ∃ b : Bytes,
      (run env store0 argv).writes =
        [("CarParams", b), ("CarParamsCache", b), ("CarParamsPersistent", b)] ∧
      (run env store0 argv).store =
        put (put (put store0 "CarParams" b) "CarParamsCache" b) "CarParamsPersistent" b := by
  obtain ⟨hlen, p0, ps, m0, ms, hp, hm⟩ := run_success_inv env store0 argv h
  refine ⟨env.to_bytes m0.carParams, ?_, ?_⟩ <;>
    rw [run_pos env store0 argv hlen, runWithArg_found env store0 _ p0 ps m0 ms hp hm]
  · rfl
  · exact seedStore_eq_puts store0 _

/-- Witness for C6: the write sequence of a concrete successful run names
the three keys in the specified order. -/
theorem run_success_writes_in_order_witness :
    ((run envW [] ["set_car_params.py", "routeC"]).writes).map Prod.fst =
      ["CarParams", "CarParamsCache", "CarParamsPersistent"] := by
  obtain ⟨b, hw, hs⟩ :=
    run_success_writes_in_order envW [] ["set_car_params.py", "routeC"] (by decide)
  rw [hw]
  rfl

/-- Counterexample to C8 as stated: this run (argument given, but the
segment holds no `carParams` record) performs zero store writes, not
exactly three, although it does perform its one log read. -/
theorem run_effect_counts_counterexample :
    (run envNoCP [] ["set_car_params.py", "routeD"]).writes = [] ∧
    (run envNoCP [] ["set_car_params.py", "routeD"]).reads = ["seg0"] := by
  decide

/-- Claim C8 (amended to distinguish run outcomes): every run either
succeeds — performing exactly three store writes that touch exactly the
keys `CarParams`, `CarParamsCache`, `CarParamsPersistent` in that order,
and exactly one filesystem-backed log read, an argument necessarily having
been given — or fails, performing zero store writes. -/
theorem run_effect_counts {α : Type} (env : Env α) (store0 : Store)
    (argv : List String) :
    ((run env store0 argv).error = none ∧
      ((run env store0 argv).writes).map Prod.fst = carParamsKeys ∧
      (run env store0 argv).reads.length = 1 ∧
      1 < argv.length) ∨
    ((run env store0 argv).error ≠ none ∧ (run env store0 argv).writes = []) := by
  by_cases hlen : 1 < argv.length
  · rw [run_pos env store0 argv hlen]
    cases hp : env.qlog_paths (argv.get ⟨1, hlen⟩) with
    | nil =>
      rw [runWithArg_no_paths env store0 _ hp]
      exact Or.inr ⟨by simp, rfl⟩
    | cons p0 ps =>
      cases hm : (env.logRead p0).filter (fun m => m.which == "carParams") with
      | nil =>
        rw [runWithArg_no_cps env store0 _ p0 ps hp hm]
        exact Or.inr ⟨by simp, rfl⟩
      | cons m0 ms =>
        rw [runWithArg_found env store0 _ p0 ps m0 ms hp hm]
        exact Or.inl ⟨rfl, rfl, rfl, hlen⟩
  · rw [run_neg env store0 argv hlen]
    exact Or.inr ⟨by simp, rfl⟩

/-- Claim C1 is refuted by the code: a zero-argument invocation does not
succeed and does not seed the three keys with a default record — it dies
with the unbound-name error on `car` (never imported) and leaves the store
exactly as it was. -/
theorem run_zero_args_name_error_bug :
    (run envW [("CarParams", [9])] ["set_car_params.py"]).error = some RunError.nameError ∧
    (run envW [("CarParams", [9])] ["set_car_params.py"]).writes = [] ∧
    (run envW [("CarParams", [9])] ["set_car_params.py"]).store = [("CarParams", [9])] := by
  decide

/-- Claim C7 is refuted by the code: repeated zero-argument invocations
never store any encoding at all — both runs abort on the unbound name
`car`, so after two consecutive zero-argument runs the `CarParams` key is
still absent. -/
theorem run_zero_args_never_stores :
    get (run envW (run envW [] ["set_car_params.py"]).store ["set_car_params.py"]).store
      "CarParams" = none := by
  decide

end SetCarParams
